import Mathlib

/-
Verification of the request-routing / dispatch / error-translation layer of
the products API Lambda (src/main.py) against its design specification.

The handlers (`list_products`, `get_product`, `create_product`) are embedded
directly from src/main.py.  The pieces the Python code delegates to third
party libraries (JSON parsing/serialisation via `json`, routing and error
translation via `APIGatewayRestResolver`) are modelled from the spec, as
noted on each definition.  Floating point JSON numbers are not modelled; all
numbers in the data model are integers (as in every example of the spec).
-/

/-- JSON-like values, as produced by parsing a request body and as returned
by handlers.  Objects keep their members as an ordered association list,
mirroring Python dict insertion order. -/
inductive Json where
  | null
  | bool (b : Bool)
  | num (n : Int)
  | str (s : String)
  | arr (xs : List Json)
  | obj (members : List (String × Json))

/-- Decimal digit to character. -/
def digitChar : Nat → Char
  | 0 => '0'
  | 1 => '1'
  | 2 => '2'
  | 3 => '3'
  | 4 => '4'
  | 5 => '5'
  | 6 => '6'
  | 7 => '7'
  | 8 => '8'
  | _ => '9'

/-- Character to decimal digit value. -/
def digitVal (c : Char) : Nat := c.toNat - 48

/-- Decimal digits of a natural number, most significant first; fuel-driven
so that it is structurally recursive (fuel `n + 1` always suffices). -/
def natCharsAux : Nat → Nat → List Char
  | 0, _ => []
  | fuel + 1, n =>
    if n < 10 then [digitChar n] else natCharsAux fuel (n / 10) ++ [digitChar (n % 10)]

/-- Decimal representation of a natural number. -/
def natChars (n : Nat) : List Char := natCharsAux (n + 1) n

/-- Decimal representation of an integer. -/
def intChars (n : Int) : List Char :=
  if n < 0 then '-' :: natChars n.natAbs else natChars n.toNat

/-- Modelled from the spec: JSON string escaping used by serialisation
(`json.dumps` is not part of src/).  Quotes and backslashes are escaped. -/
def escChar (c : Char) : List Char :=
  if c = '"' then ['\\', '"'] else if c = '\\' then ['\\', '\\'] else [c]

/-- Escape every character of a string body. -/
def escList : List Char → List Char
  | [] => []
  | c :: cs => escChar c ++ escList cs

mutual

/-- Modelled from the spec: JSON serialisation of a payload (the Response
Builder "serializes payload to JSON"; `json.dumps` is not part of src/). -/
def dumpChars : Json → List Char
  | .null => "null".data
  | .bool true => "true".data
  | .bool false => "false".data
  | .num n => intChars n
  | .str s => '"' :: escList s.data ++ ['"']
  | .arr [] => ['[', ']']
  | .arr (x :: xs) => '[' :: (dumpChars x ++ dumpArrRest xs) ++ [']']
  | .obj [] => ['\x7b', '\x7d']
  | .obj ((k, v) :: ms) =>
    '\x7b' :: (('"' :: escList k.data ++ '"' :: ':' :: dumpChars v) ++ dumpObjRest ms) ++ ['\x7d']

/-- Serialisation of the remaining array elements, each preceded by a comma. -/
def dumpArrRest : List Json → List Char
  | [] => []
  | y :: ys => ',' :: dumpChars y ++ dumpArrRest ys

/-- Serialisation of the remaining object members, each preceded by a comma. -/
def dumpObjRest : List (String × Json) → List Char
  | [] => []
  | (k, v) :: ms => ',' :: ('"' :: escList k.data ++ '"' :: ':' :: dumpChars v) ++ dumpObjRest ms

end

/-- Serialisation of one object member. -/
def memChars (k : String) (v : Json) : List Char :=
  '"' :: escList k.data ++ '"' :: ':' :: dumpChars v

/-- Serialise a JSON value to a string. -/
def Json.dumps (v : Json) : String := String.mk (dumpChars v)

/-- Accumulating decimal number scanner: consumes leading digits. -/
def pNat : Nat → List Char → Nat × List Char
  | acc, [] => (acc, [])
  | acc, c :: rest =>
    if c.isDigit then pNat (acc * 10 + digitVal c) rest else (acc, c :: rest)

/-- Holds when a character list does not start with a decimal digit, so that
a maximal-munch number parse stops exactly before it. -/
def noDigitHead : List Char → Bool
  | [] => true
  | c :: _ => !c.isDigit

/-- Value of a digit list under left-to-right accumulation. -/
def chainVal : Nat → List Char → Nat
  | acc, [] => acc
  | acc, c :: cs => chainVal (acc * 10 + digitVal c) cs

mutual

/-- String-literal body scanner: consumes characters up to an unescaped
closing quote, decoding backslash escapes. -/
def pStrAux : List Char → Option (List Char × List Char)
  | [] => none
  | c :: rest =>
    if c = '"' then some ([], rest)
    else if c = '\\' then pEscTail rest
    else (pStrAux rest).map (fun p => (c :: p.1, p.2))

/-- Decode the character following a backslash inside a string literal. -/
def pEscTail : List Char → Option (List Char × List Char)
  | [] => none
  | e :: rest2 =>
    if e = '"' ∨ e = '\\' then (pStrAux rest2).map (fun p => (e :: p.1, p.2)) else none

end

/-- Expect a fixed literal character sequence, returning the remaining
input. -/
def expectChars : List Char → List Char → Option (List Char)
  | [], rest => some rest
  | _ :: _, [] => none
  | e :: es, c :: rest => if c = e then expectChars es rest else none

/-- Parse the digits of a negative number after the minus sign. -/
def pNeg : List Char → Option (Json × List Char)
  | [] => none
  | d :: r =>
    if d.isDigit then
      some (.num (-(((pNat (digitVal d) r).1 : Nat) : Int)), (pNat (digitVal d) r).2)
    else none

/-- Head-test on a character list. -/
def headIs (c : Char) : List Char → Bool
  | [] => false
  | x :: _ => x = c

mutual

/-- Modelled from the spec: JSON value parsing (`json.loads` is not part of
src/; the Request Context "attempts to parse rawBody as JSON").  Fuel-driven
recursive descent; fuel `length + 1` suffices for any input. -/
def pValue : Nat → List Char → Option (Json × List Char)
  | 0, _ => none
  | _ + 1, [] => none
  | fuel + 1, c :: rest =>
    if c = 'n' then (expectChars ['u', 'l', 'l'] rest).map (fun r => (.null, r))
    else if c = 't' then (expectChars ['r', 'u', 'e'] rest).map (fun r => (.bool true, r))
    else if c = 'f' then (expectChars ['a', 'l', 's', 'e'] rest).map (fun r => (.bool false, r))
    else if c = '"' then
      (pStrAux rest).map (fun p => (.str (String.mk p.1), p.2))
    else if c = '[' then
      if headIs ']' rest then some (.arr [], rest.tail)
      else
        (pValue fuel rest).bind fun vr =>
          (pArrRest fuel vr.2).map fun p => (.arr (vr.1 :: p.1), p.2)
    else if c = '\x7b' then
      if headIs '\x7d' rest then some (.obj [], rest.tail)
      else
        (pMember fuel rest).bind fun kv =>
          (pObjRest fuel kv.2).map fun p => (.obj (kv.1 :: p.1), p.2)
    else if c = '-' then pNeg rest
    else if c.isDigit then
      some (.num (((pNat (digitVal c) rest).1 : Nat) : Int), (pNat (digitVal c) rest).2)
    else none

/-- Parse one `"key":value` object member. -/
def pMember : Nat → List Char → Option ((String × Json) × List Char)
  | 0, _ => none
  | fuel + 1, cs =>
    match cs with
    | '"' :: rest =>
      (pStrAux rest).bind fun kr =>
        (expectChars [':'] kr.2).bind fun r2 =>
          (pValue fuel r2).map fun vr => ((String.mk kr.1, vr.1), vr.2)
    | _ => none

/-- Parse the remaining array elements up to the closing bracket. -/
def pArrRest : Nat → List Char → Option (List Json × List Char)
  | 0, _ => none
  | fuel + 1, cs =>
    match cs with
    | ']' :: r => some ([], r)
    | ',' :: r =>
      (pValue fuel r).bind fun vr =>
        (pArrRest fuel vr.2).map fun p => (vr.1 :: p.1, p.2)
    | _ => none

/-- Parse the remaining object members up to the closing brace. -/
def pObjRest : Nat → List Char → Option (List (String × Json) × List Char)
  | 0, _ => none
  | fuel + 1, cs =>
    match cs with
    | '\x7d' :: r => some ([], r)
    | ',' :: r =>
      (pMember fuel r).bind fun kv =>
        (pObjRest fuel kv.2).map fun p => (kv.1 :: p.1, p.2)
    | _ => none

end

/-- Parse a whole string as a single JSON value (no trailing input). -/
def jsonParse (s : String) : Option Json :=
  match pValue (s.data.length + 1) s.data with
  | some (v, []) => some v
  | _ => none

/-- Python truthiness of a JSON value (`if not product_name` in
`create_product`, src/main.py line 81): None, False, 0, empty string, empty
list and empty dict are falsy, everything else is truthy. -/
def pyTruthy : Json → Bool
  | .null => false
  | .bool b => b
  | .num n => n != 0
  | .str s => s != ""
  | .arr xs => !xs.isEmpty
  | .obj ms => !ms.isEmpty

/-- Python `isinstance(x, (int, float))` on a JSON value (src/main.py line
81).  Python `bool` is a subclass of `int`, so booleans pass the check;
floats are not modelled (all JSON numbers here are integers). -/
def pyIsIntOrFloat : Json → Bool
  | .bool _ => true
  | .num _ => true
  | _ => false

/-- Association-list lookup where a later binding wins, matching a Python
dict built by inserting the pairs in order. -/
def lookupLast {α : Type} : List (String × α) → String → Option α
  | [], _ => none
  | (k, v) :: rest, key =>
    match lookupLast rest key with
    | some r => some r
    | none => if k = key then some v else none

/-- Python type name of a JSON value, as used in AttributeError messages. -/
def pyTypeName : Json → String
  | .null => "NoneType"
  | .bool _ => "bool"
  | .num _ => "int"
  | .str _ => "str"
  | .arr _ => "list"
  | .obj _ => "dict"

/-- Exceptions that can cross the handler/framework boundary: the two
modelled Powertools error kinds raised in src/main.py plus a catch-all for
any other Python exception (carrying its `str(e)` message). -/
inductive PyExc where
  | badRequestE (msg : String)
  | notFoundE (msg : String)
  | otherE (msg : String)

/-- Message carried by an exception (`str(e)` in Python). -/
def PyExc.msg : PyExc → String
  | .badRequestE m => m
  | .notFoundE m => m
  | .otherE m => m

/-- Python `dict.get(key)` on a dict built from the given pairs: the value
at the key, or None when absent. -/
def pyGet (ms : List (String × Json)) (key : String) : Json :=
  (lookupLast ms key).getD .null

/-- Python `body.get(key)` (src/main.py lines 78-79): on a dict returns the
value or None; on any other value raises AttributeError with the Python
message text. -/
def pyGetAttr (body : Json) (key : String) : Except PyExc Json :=
  match body with
  | .obj ms => .ok (pyGet ms key)
  | v => .error (.otherE ("'" ++ pyTypeName v ++ "' object has no attribute 'get'"))

/-- Modelled from the spec: the Request Context lazy JSON body accessor
(`app.current_event.json_body`; not part of src/).  Empty or absent body
yields an empty mapping; malformed JSON raises a parse error (a plain
exception, not one of the modelled error kinds). -/
def jsonBody : Option String → Except PyExc Json
  | none => .ok (.obj [])
  | some s =>
    if s = "" then .ok (.obj [])
    else
      match jsonParse s with
      | some v => .ok v
      | none => .error (.otherE "Malformed JSON body")

/-- The three static products (src/main.py lines 36-40 and 54-58). -/
def prod1Json : Json := .obj [("id", .str "prod1"), ("name", .str "Laptop"), ("price", .num 1200)]

/-- Second static product. -/
def prod2Json : Json := .obj [("id", .str "prod2"), ("name", .str "Mouse"), ("price", .num 25)]

/-- Third static product. -/
def prod3Json : Json := .obj [("id", .str "prod3"), ("name", .str "Keyboard"), ("price", .num 75)]

/-- The simulated product database of `get_product` (src/main.py 54-58). -/
def productsDb : List (String × Json) :=
  [("prod1", prod1Json), ("prod2", prod2Json), ("prod3", prod3Json)]

/-- Handler for GET /products (src/main.py 29-42): returns the static list;
a bare return means status 200. -/
def listProductsH : Except PyExc (Json × Nat) :=
  .ok (.obj [("products", .arr [prod1Json, prod2Json, prod3Json])], 200)

/-- Handler for GET /products/{product_id} (src/main.py 45-65): looks the id
up in the simulated database and raises NotFoundError when absent.  The
stored products are non-empty dicts, so Python's `if not product:` test
coincides with the lookup failing. -/
def getProductH (productId : String) : Except PyExc (Json × Nat) :=
  match lookupLast productsDb productId with
  | some p => .ok (p, 200)
  | none => .error (.notFoundE ("Product with ID '" ++ productId ++ "' not found."))

/-- Hexadecimal digit characters. -/
def hexDigitChar : Nat → Char
  | 0 => '0'
  | 1 => '1'
  | 2 => '2'
  | 3 => '3'
  | 4 => '4'
  | 5 => '5'
  | 6 => '6'
  | 7 => '7'
  | 8 => '8'
  | 9 => '9'
  | 10 => 'a'
  | 11 => 'b'
  | 12 => 'c'
  | 13 => 'd'
  | 14 => 'e'
  | _ => 'f'

/-- Python `bytes.hex()`: two hex characters per byte. -/
def bytesHex (bs : List Nat) : List Char :=
  bs.foldr (fun b acc => hexDigitChar (b / 16 % 16) :: hexDigitChar (b % 16) :: acc) []

/-- The id generation of `create_product` (src/main.py 89-91):
`f"prod_\x7blen(os.urandom(4).hex())\x7d"` — note it interpolates the
LENGTH of the hex string of the 4 random bytes, not the hex string. -/
def newProductId (randomBytes : List Nat) : String :=
  "prod_" ++ String.mk (natChars (bytesHex randomBytes).length)

/-- Body of the `try:` block of `create_product` (src/main.py 76-102).
`randomBytes` stands for the draw of `os.urandom(4)`. -/
def createProductTry (rawBody : Option String) (randomBytes : List Nat) :
    Except PyExc (Json × Nat) :=
  match jsonBody rawBody with
  | .error e => .error e
  | .ok body =>
    match pyGetAttr body "name" with
    | .error e => .error e
    | .ok productName =>
      match pyGetAttr body "price" with
      | .error e => .error e
      | .ok productPrice =>
        if !pyTruthy productName || !pyIsIntOrFloat productPrice then
          .error (.badRequestE "Invalid product data. 'name' and 'price' are required.")
        else
          .ok (.obj [("message", .str "Product created successfully"),
                     ("product", .obj [("id", .str (newProductId randomBytes)),
                                       ("name", productName),
                                       ("price", productPrice)])], 201)

/-- Handler for POST /products (src/main.py 68-108): re-raises
BadRequestError unchanged, and wraps ANY other exception into a
BadRequestError whose message embeds the original exception text
(src/main.py line 108). -/
def createProductH (rawBody : Option String) (randomBytes : List Nat) :
    Except PyExc (Json × Nat) :=
  match createProductTry rawBody randomBytes with
  | .ok r => .ok r
  | .error (.badRequestE m) => .error (.badRequestE m)
  | .error e => .error (.badRequestE ("An unexpected error occurred: " ++ e.msg))

/-- One slash-delimited component of a path template: literal text or a
named parameter (spec §3, §4.1). -/
inductive Segment where
  | lit (text : List Char)
  | pvar (name : String)

/-- Split a concrete path into its slash-delimited components. -/
def splitSegs : List Char → List (List Char)
  | [] => [[]]
  | c :: rest =>
    if c = '/' then [] :: splitSegs rest
    else
      match splitSegs rest with
      | s :: ss => (c :: s) :: ss
      | [] => [[c]]

/-- Modelled from the spec: Path Matcher (§4.1; the resolver's matching code
is not part of src/).  Requires identical segment counts, compares literal
segments exactly, and binds each parameter segment's value verbatim. -/
def matchSegs : List Segment → List (List Char) → Option (List (String × String))
  | [], [] => some []
  | .lit l :: ts, s :: ss => if s = l then matchSegs ts ss else none
  | .pvar n :: ts, s :: ss =>
    match matchSegs ts ss with
    | some ps => some ((n, String.mk s) :: ps)
    | none => none
  | _, _ => none

/-- Identifies one of the three registered handlers of src/main.py. -/
inductive HandlerId where
  | listProductsR
  | getProductR
  | createProductR

/-- A registered route: HTTP method, parsed path template, handler. -/
structure Route where
  method : String
  template : List Segment
  handler : HandlerId

/-- Template of "/products". -/
def productsTemplate : List Segment := [.lit [], .lit ['p', 'r', 'o', 'd', 'u', 'c', 't', 's']]

/-- Template of "/products/<product_id>". -/
def productTemplate : List Segment :=
  [.lit [], .lit ['p', 'r', 'o', 'd', 'u', 'c', 't', 's'], .pvar "product_id"]

/-- The route table registered at startup (src/main.py decorators at lines
29, 45, 68). -/
def routeTable : List Route :=
  [⟨"GET", productsTemplate, .listProductsR⟩,
   ⟨"GET", productTemplate, .getProductR⟩,
   ⟨"POST", productsTemplate, .createProductR⟩]

/-- Modelled from the spec: Router resolution (§4.2; the resolver's code is
not part of src/).  Filters by method then by path match; no route matching
means a routing NotFound. -/
def findRoute : List Route → String → List (List Char) → Option (HandlerId × List (String × String))
  | [], _, _ => none
  | r :: rs, m, segs =>
    if r.method = m then
      match matchSegs r.template segs with
      | some ps => some (r.handler, ps)
      | none => findRoute rs m segs
    else findRoute rs m segs

/-- Resolve an incoming (method, path) pair against the route table. -/
def resolve (method : String) (path : String) :
    Option (HandlerId × List (String × String)) :=
  findRoute routeTable method (splitSegs path.data)

/-- An inbound HTTP-style event (spec §6).  `randomBytes` models the draw of
`os.urandom(4)` that `create_product` performs. -/
structure Event where
  httpMethod : String
  path : String
  body : Option String
  randomBytes : List Nat

/-- Run the resolved handler with its bound path parameters (src/main.py
handler bodies). -/
def runHandler (h : HandlerId) (params : List (String × String)) (e : Event) :
    Except PyExc (Json × Nat) :=
  match h with
  | .listProductsR => listProductsH
  | .getProductR => getProductH ((lookupLast params "product_id").getD "")
  | .createProductR => createProductH e.body e.randomBytes

/-- Route the event and run its handler, yielding the handler's outcome: a
(payload, status) pair or the exception that crossed the boundary. -/
def dispatch (e : Event) : Except PyExc (Json × Nat) :=
  match resolve e.httpMethod e.path with
  | none => .error (.notFoundE "Not found")
  | some (h, params) => runHandler h params e

/-- The normalized response envelope (spec §3, §6). -/
structure Envelope where
  statusCode : Nat
  headers : List (String × String)
  body : String
  isBase64Encoded : Bool

/-- Standard headers set by the Response Builder (spec §4.5). -/
def stdHeaders : List (String × String) := [("Content-Type", "application/json")]

/-- Error body shape `\x7b"message": <string>\x7d` (spec §4.4). -/
def errBody (msg : String) : Json := .obj [("message", .str msg)]

/-- Modelled from the spec: Error Translator and Response Builder (§4.4,
§4.5; the resolver's code is not part of src/).  BadRequest maps to 400,
NotFound to 404; any unmodelled failure is re-expressed as a 500 Internal
error with a fixed generic message that never embeds the failure detail. -/
def envelopeOf : Except PyExc (Json × Nat) → Envelope
  | .ok (payload, code) => ⟨code, stdHeaders, payload.dumps, false⟩
  | .error (.badRequestE m) => ⟨400, stdHeaders, (errBody m).dumps, false⟩
  | .error (.notFoundE m) => ⟨404, stdHeaders, (errBody m).dumps, false⟩
  | .error (.otherE _) => ⟨500, stdHeaders, (errBody "Internal server error").dumps, false⟩

/-- Full processing of one event: route, run the handler, translate the
outcome into the response envelope (src/main.py 114-120 `lambda_handler`
delegating to `app.resolve`). -/
def handle (e : Event) : Envelope := envelopeOf (dispatch e)

/-- Modelled from the spec: shape equality of two parsed templates — same
segment count, same segment kinds with identical literals (parameter names
may differ); two routes of equal shape match exactly the same concrete
paths (§3 Route invariant). -/
def sameShape : List Segment → List Segment → Bool
  | [], [] => true
  | .lit a :: ts, .lit b :: us => a = b && sameShape ts us
  | .pvar _ :: ts, .pvar _ :: us => sameShape ts us
  | _, _ => false

/-- Modelled from the spec: route registration (§4.2; the resolver's
registration code is not part of src/).  Rejects a duplicate of an already
registered `(method, template shape)` with a configuration error, otherwise
appends to the table. -/
def register (tbl : List Route) (m : String) (t : List Segment) (h : HandlerId) :
    Except String (List Route) :=
  if tbl.any (fun r => r.method = m && sameShape r.template t) then
    .error "A route with the same method and path template is already registered"
  else .ok (tbl ++ [⟨m, t, h⟩])

theorem pNat_stop (acc : Nat) (cs : List Char) (h : noDigitHead cs = true) :
    pNat acc cs = (acc, cs) := by
  cases cs with
  | nil => rfl
  | cons c rest =>
    simp only [noDigitHead, Bool.not_eq_true'] at h
    simp [pNat, h]

theorem pNat_digits :
    ∀ ds : List Char, (∀ c ∈ ds, c.isDigit = true) →
      ∀ acc rest, noDigitHead rest = true →
        pNat acc (ds ++ rest) = (chainVal acc ds, rest) := by
  intro ds
  induction ds with
  | nil =>
    intro _ acc rest h
    rw [List.nil_append]
    exact pNat_stop acc rest h
  | cons c ds ih =>
    intro hds acc rest h
    have hc : c.isDigit = true := hds c (List.mem_cons_self c ds)
    rw [List.cons_append]
    rw [show pNat acc (c :: (ds ++ rest)) =
      if c.isDigit then pNat (acc * 10 + digitVal c) (ds ++ rest) else (acc, c :: (ds ++ rest))
      from rfl]
    rw [hc]
    simp only [if_true]
    rw [show chainVal acc (c :: ds) = chainVal (acc * 10 + digitVal c) ds from rfl]
    exact ih (fun d hd => hds d (List.mem_cons_of_mem c hd)) _ rest h

theorem chainVal_append (xs ys : List Char) :
    ∀ acc, chainVal acc (xs ++ ys) = chainVal (chainVal acc xs) ys := by
  induction xs with
  | nil => intro acc; rfl
  | cons c cs ih =>
    intro acc
    rw [List.cons_append]
    rw [show chainVal acc (c :: (cs ++ ys)) = chainVal (acc * 10 + digitVal c) (cs ++ ys)
      from rfl]
    rw [show chainVal acc (c :: cs) = chainVal (acc * 10 + digitVal c) cs from rfl]
    exact ih _

theorem digitVal_digitChar (d : Nat) (h : d < 10) : digitVal (digitChar d) = d := by
  interval_cases d <;> rfl

theorem digitChar_isDigit (d : Nat) (h : d < 10) : (digitChar d).isDigit = true := by
  interval_cases d <;> decide

theorem natCharsAux_spec (fuel : Nat) :
    ∀ n, n < fuel →
      natCharsAux fuel n ≠ [] ∧ (∀ c ∈ natCharsAux fuel n, c.isDigit = true) ∧
      ∀ acc, chainVal acc (natCharsAux fuel n) =
        acc * 10 ^ (natCharsAux fuel n).length + n := by
  induction fuel with
  | zero => intro n hn; omega
  | succ fuel ih =>
    intro n hn
    have e1 : natCharsAux (fuel + 1) n =
        if n < 10 then [digitChar n] else natCharsAux fuel (n / 10) ++ [digitChar (n % 10)] :=
      rfl
    by_cases hsmall : n < 10
    · rw [e1, if_pos hsmall]
      refine ⟨by simp, ?_, ?_⟩
      · intro c hc
        rw [List.mem_singleton] at hc
        exact hc ▸ digitChar_isDigit n hsmall
      · intro acc
        rw [show chainVal acc [digitChar n] = acc * 10 + digitVal (digitChar n) from rfl]
        rw [digitVal_digitChar n hsmall, List.length_singleton, pow_one]
    · have hdiv : n / 10 < n := Nat.div_lt_self (by omega) (by omega)
      obtain ⟨hne, hdigs, hval⟩ := ih (n / 10) (by omega)
      have hmod : n % 10 < 10 := Nat.mod_lt n (by omega)
      rw [e1, if_neg hsmall]
      refine ⟨by simp, ?_, ?_⟩
      · intro c hc
        rw [List.mem_append, List.mem_singleton] at hc
        rcases hc with hc | hc
        · exact hdigs c hc
        · exact hc ▸ digitChar_isDigit _ hmod
      · intro acc
        rw [chainVal_append, hval acc]
        rw [show chainVal (acc * 10 ^ (natCharsAux fuel (n / 10)).length + n / 10)
            [digitChar (n % 10)] =
          (acc * 10 ^ (natCharsAux fuel (n / 10)).length + n / 10) * 10 +
            digitVal (digitChar (n % 10)) from rfl]
        rw [digitVal_digitChar _ hmod, List.length_append, List.length_singleton]
        rw [pow_succ, ← mul_assoc]
        have hdm := Nat.div_add_mod n 10
        omega

theorem natChars_ne_nil (n : Nat) : natChars n ≠ [] :=
  (natCharsAux_spec (n + 1) n (by omega)).1

theorem natChars_digits (n : Nat) : ∀ c ∈ natChars n, c.isDigit = true :=
  (natCharsAux_spec (n + 1) n (by omega)).2.1

theorem natChars_val (n : Nat) : chainVal 0 (natChars n) = n := by
  have h := (natCharsAux_spec (n + 1) n (by omega)).2.2 0
  simpa [natChars] using h

theorem pStrAux_esc (cs : List Char) :
    ∀ rest, pStrAux (escList cs ++ '"' :: rest) = some (cs, rest) := by
  induction cs with
  | nil => intro rest; simp [escList, pStrAux]
  | cons c cs ih =>
    intro rest
    by_cases hq : c = '"'
    · subst hq
      rw [show escList ('"' :: cs) ++ '"' :: rest =
        '\\' :: '"' :: (escList cs ++ '"' :: rest) from rfl]
      simp [pStrAux, pEscTail, ih rest]
    · by_cases hb : c = '\\'
      · subst hb
        rw [show escList ('\\' :: cs) ++ '"' :: rest =
          '\\' :: '\\' :: (escList cs ++ '"' :: rest) from rfl]
        simp [pStrAux, pEscTail, ih rest]
      · have he : escChar c = [c] := by simp [escChar, hq, hb]
        rw [show escList (c :: cs) = escChar c ++ escList cs from rfl, he]
        simp only [List.cons_append, List.nil_append]
        simp only [pStrAux, if_neg hq, if_neg hb]
        rw [ih rest]
        rfl

theorem digit_ne (c : Char) (h : c.isDigit = true) :
    c ≠ 'n' ∧ c ≠ 't' ∧ c ≠ 'f' ∧ c ≠ '"' ∧ c ≠ '[' ∧ c ≠ '\x7b' ∧ c ≠ '-' ∧
    c ≠ ']' ∧ c ≠ '\x7d' ∧ c ≠ ',' := by
  refine ⟨?_, ?_, ?_, ?_, ?_, ?_, ?_, ?_, ?_, ?_⟩ <;> (rintro rfl; revert h; decide)

theorem dumpChars_head (v : Json) :
    ∃ c cs, dumpChars v = c :: cs ∧ c ≠ ']' ∧ c ≠ '\x7d' ∧ c ≠ ',' := by
  cases v with
  | null => exact ⟨'n', _, rfl, by decide, by decide, by decide⟩
  | bool b =>
    cases b with
    | false => exact ⟨'f', _, rfl, by decide, by decide, by decide⟩
    | true => exact ⟨'t', _, rfl, by decide, by decide, by decide⟩
  | num n =>
    by_cases hneg : n < 0
    · exact ⟨'-', natChars n.natAbs, by simp only [dumpChars, intChars, if_pos hneg],
        by decide, by decide, by decide⟩
    · cases hnc : natChars n.toNat with
      | nil => exact absurd hnc (natChars_ne_nil _)
      | cons d ds =>
        have hd : d.isDigit = true :=
          natChars_digits n.toNat d (by rw [hnc]; exact List.mem_cons_self d ds)
        obtain ⟨-, -, -, -, -, -, -, h8, h9, h10⟩ := digit_ne d hd
        refine ⟨d, ds, ?_, h8, h9, h10⟩
        simp only [dumpChars, intChars, if_neg hneg]
        exact hnc
  | str s => exact ⟨'"', _, rfl, by decide, by decide, by decide⟩
  | arr xs =>
    cases xs with
    | nil => exact ⟨'[', _, rfl, by decide, by decide, by decide⟩
    | cons x xs => exact ⟨'[', _, rfl, by decide, by decide, by decide⟩
  | obj ms =>
    cases ms with
    | nil => exact ⟨'\x7b', _, rfl, by decide, by decide, by decide⟩
    | cons m ms =>
      obtain ⟨k, v⟩ := m
      exact ⟨'\x7b', _, rfl, by decide, by decide, by decide⟩

theorem noDigitHead_arrRest (xs : List Json) (rest : List Char) :
    noDigitHead (dumpArrRest xs ++ ']' :: rest) = true := by
  cases xs with
  | nil => simp [dumpArrRest, noDigitHead]
  | cons y ys => simp [dumpArrRest, noDigitHead]

theorem noDigitHead_objRest (ms : List (String × Json)) (rest : List Char) :
    noDigitHead (dumpObjRest ms ++ '\x7d' :: rest) = true := by
  cases ms with
  | nil => simp [dumpObjRest, noDigitHead]
  | cons m ms =>
    obtain ⟨k, v⟩ := m
    simp [dumpObjRest, noDigitHead]

theorem pValue_cons (fuel : Nat) (c : Char) (rest : List Char) :
    pValue (fuel + 1) (c :: rest) =
      if c = 'n' then (expectChars ['u', 'l', 'l'] rest).map (fun r => (.null, r))
      else if c = 't' then (expectChars ['r', 'u', 'e'] rest).map (fun r => (.bool true, r))
      else if c = 'f' then
        (expectChars ['a', 'l', 's', 'e'] rest).map (fun r => (.bool false, r))
      else if c = '"' then (pStrAux rest).map (fun p => (.str (String.mk p.1), p.2))
      else if c = '[' then
        if headIs ']' rest then some (.arr [], rest.tail)
        else
          (pValue fuel rest).bind fun vr =>
            (pArrRest fuel vr.2).map fun p => (.arr (vr.1 :: p.1), p.2)
      else if c = '\x7b' then
        if headIs '\x7d' rest then some (.obj [], rest.tail)
        else
          (pMember fuel rest).bind fun kv =>
            (pObjRest fuel kv.2).map fun p => (.obj (kv.1 :: p.1), p.2)
      else if c = '-' then pNeg rest
      else if c.isDigit then
        some (.num (((pNat (digitVal c) rest).1 : Nat) : Int), (pNat (digitVal c) rest).2)
      else none := rfl

theorem pMember_quote (fuel : Nat) (rest : List Char) :
    pMember (fuel + 1) ('"' :: rest) =
      (pStrAux rest).bind fun kr =>
        (expectChars [':'] kr.2).bind fun r2 =>
          (pValue fuel r2).map fun vr => ((String.mk kr.1, vr.1), vr.2) := rfl

/-- Round-trip at every recursion level: parsing the serialisation of a value
(with enough fuel and a non-digit continuation) returns exactly the value. -/
theorem parse_dump (f : Nat) :
    (∀ v rest, (dumpChars v).length ≤ f → noDigitHead rest = true →
      pValue f (dumpChars v ++ rest) = some (v, rest)) ∧
    (∀ k v rest, (memChars k v).length ≤ f → noDigitHead rest = true →
      pMember f (memChars k v ++ rest) = some ((k, v), rest)) ∧
    (∀ xs rest, (dumpArrRest xs).length + 1 ≤ f →
      pArrRest f (dumpArrRest xs ++ ']' :: rest) = some (xs, rest)) ∧
    (∀ ms rest, (dumpObjRest ms).length + 1 ≤ f →
      pObjRest f (dumpObjRest ms ++ '\x7d' :: rest) = some (ms, rest)) := by
  induction f with
  | zero =>
    refine ⟨?_, ?_, ?_, ?_⟩
    · intro v rest hlen _
      obtain ⟨c, cs, hv, -, -, -⟩ := dumpChars_head v
      rw [hv] at hlen
      simp at hlen
    · intro k v rest hlen _
      simp [memChars] at hlen
    · intro xs rest hlen
      omega
    · intro ms rest hlen
      omega
  | succ f ih =>
    obtain ⟨ihP, ihM, ihQ, ihR⟩ := ih
    refine ⟨?_, ?_, ?_, ?_⟩
    · intro v rest hlen hrest
      cases v with
      | null =>
        rw [show dumpChars Json.null ++ rest = 'n' :: 'u' :: 'l' :: 'l' :: rest from rfl]
        rfl
      | bool b =>
        cases b with
        | false =>
          rw [show dumpChars (Json.bool false) ++ rest =
            'f' :: 'a' :: 'l' :: 's' :: 'e' :: rest from rfl]
          rfl
        | true =>
          rw [show dumpChars (Json.bool true) ++ rest =
            't' :: 'r' :: 'u' :: 'e' :: rest from rfl]
          rfl
      | num n =>
        by_cases hneg : n < 0
        · have hsplit : dumpChars (Json.num n) ++ rest = '-' :: (natChars n.natAbs ++ rest) := by
            rw [show dumpChars (Json.num n) =
              if n < 0 then '-' :: natChars n.natAbs else natChars n.toNat from rfl,
              if_pos hneg]
            rfl
          rw [hsplit]
          rw [show pValue (f + 1) ('-' :: (natChars n.natAbs ++ rest)) =
            pNeg (natChars n.natAbs ++ rest) from rfl]
          obtain ⟨d, ds, hnat⟩ : ∃ d ds, natChars n.natAbs = d :: ds := by
            cases hh : natChars n.natAbs with
            | nil => exact absurd hh (natChars_ne_nil _)
            | cons d ds => exact ⟨d, ds, rfl⟩
          have hd : d.isDigit = true :=
            natChars_digits _ d (by rw [hnat]; exact List.mem_cons_self d ds)
          have hds : ∀ c ∈ ds, c.isDigit = true := fun c hc =>
            natChars_digits _ c (by rw [hnat]; exact List.mem_cons_of_mem d hc)
          rw [hnat]
          rw [show (d :: ds) ++ rest = d :: (ds ++ rest) from rfl]
          rw [show pNeg (d :: (ds ++ rest)) =
            if d.isDigit then
              some (.num (-(((pNat (digitVal d) (ds ++ rest)).1 : Nat) : Int)),
                (pNat (digitVal d) (ds ++ rest)).2)
            else none from rfl]
          rw [if_pos hd]
          rw [pNat_digits ds hds (digitVal d) rest hrest]
          have hval : chainVal (digitVal d) ds = n.natAbs := by
            have h0 := natChars_val n.natAbs
            rw [hnat] at h0
            rw [show chainVal 0 (d :: ds) = chainVal (0 * 10 + digitVal d) ds from rfl] at h0
            simpa using h0
          rw [hval]
          have hcast : (-(n.natAbs : Int)) = n := by omega
          rw [hcast]
        · have hsplit : dumpChars (Json.num n) ++ rest = natChars n.toNat ++ rest := by
            rw [show dumpChars (Json.num n) =
              if n < 0 then '-' :: natChars n.natAbs else natChars n.toNat from rfl,
              if_neg hneg]
          rw [hsplit]
          obtain ⟨d, ds, hnat⟩ : ∃ d ds, natChars n.toNat = d :: ds := by
            cases hh : natChars n.toNat with
            | nil => exact absurd hh (natChars_ne_nil _)
            | cons d ds => exact ⟨d, ds, rfl⟩
          have hd : d.isDigit = true :=
            natChars_digits _ d (by rw [hnat]; exact List.mem_cons_self d ds)
          have hds : ∀ c ∈ ds, c.isDigit = true := fun c hc =>
            natChars_digits _ c (by rw [hnat]; exact List.mem_cons_of_mem d hc)
          rw [hnat]
          rw [show (d :: ds) ++ rest = d :: (ds ++ rest) from rfl]
          rw [pValue_cons]
          obtain ⟨hn1, hn2, hn3, hn4, hn5, hn6, hn7, -, -, -⟩ := digit_ne d hd
          rw [if_neg hn1, if_neg hn2, if_neg hn3, if_neg hn4, if_neg hn5, if_neg hn6,
            if_neg hn7, if_pos hd]
          rw [pNat_digits ds hds (digitVal d) rest hrest]
          have hval : chainVal (digitVal d) ds = n.toNat := by
            have h0 := natChars_val n.toNat
            rw [hnat] at h0
            rw [show chainVal 0 (d :: ds) = chainVal (0 * 10 + digitVal d) ds from rfl] at h0
            simpa using h0
          rw [hval]
          have hcast : ((n.toNat : Nat) : Int) = n := by omega
          rw [hcast]
      | str s =>
        have hsplit : dumpChars (Json.str s) ++ rest =
            '"' :: (escList s.data ++ '"' :: rest) := by
          rw [show dumpChars (Json.str s) = '"' :: (escList s.data ++ ['"']) from rfl]
          simp [List.cons_append, List.append_assoc]
        rw [hsplit]
        rw [show pValue (f + 1) ('"' :: (escList s.data ++ '"' :: rest)) =
          (pStrAux (escList s.data ++ '"' :: rest)).map
            (fun p => (.str (String.mk p.1), p.2)) from rfl]
        rw [pStrAux_esc s.data rest]
        rfl
      | arr xs =>
        cases xs with
        | nil =>
          rw [show dumpChars (Json.arr []) ++ rest = '[' :: ']' :: rest from rfl]
          rfl
        | cons x xs =>
          have hsplit : dumpChars (Json.arr (x :: xs)) ++ rest =
              '[' :: (dumpChars x ++ (dumpArrRest xs ++ ']' :: rest)) := by
            rw [show dumpChars (Json.arr (x :: xs)) =
              '[' :: ((dumpChars x ++ dumpArrRest xs) ++ [']']) from rfl]
            simp [List.cons_append, List.append_assoc]
          have hlen2 : (dumpChars x).length + (dumpArrRest xs).length + 2 ≤ f + 1 := by
            rw [show dumpChars (Json.arr (x :: xs)) =
              '[' :: ((dumpChars x ++ dumpArrRest xs) ++ [']']) from rfl] at hlen
            simp [List.length_cons, List.length_append] at hlen
            omega
          rw [hsplit, pValue_cons]
          rw [if_neg (by decide : ¬('[' = 'n')), if_neg (by decide : ¬('[' = 't')),
            if_neg (by decide : ¬('[' = 'f')), if_neg (by decide : ¬('[' = '"')),
            if_pos (rfl : '[' = '[')]
          have hhead : headIs ']' (dumpChars x ++ (dumpArrRest xs ++ ']' :: rest)) = false := by
            obtain ⟨c0, cs0, hx0, h01, -, -⟩ := dumpChars_head x
            rw [hx0]
            rw [show (c0 :: cs0) ++ (dumpArrRest xs ++ ']' :: rest) =
              c0 :: (cs0 ++ (dumpArrRest xs ++ ']' :: rest)) from rfl]
            simp [headIs, h01]
          rw [hhead]
          rw [if_neg (by decide : ¬(false = true))]
          rw [ihP x (dumpArrRest xs ++ ']' :: rest) (by omega) (noDigitHead_arrRest xs rest)]
          show (pArrRest f (dumpArrRest xs ++ ']' :: rest)).map
            (fun p => (Json.arr (x :: p.1), p.2)) = some (Json.arr (x :: xs), rest)
          rw [ihQ xs rest (by omega)]
          rfl
      | obj ms =>
        cases ms with
        | nil =>
          rw [show dumpChars (Json.obj []) ++ rest = '\x7b' :: '\x7d' :: rest from rfl]
          rfl
        | cons m ms =>
          obtain ⟨k, v⟩ := m
          have hsplit : dumpChars (Json.obj ((k, v) :: ms)) ++ rest =
              '\x7b' :: (memChars k v ++ (dumpObjRest ms ++ '\x7d' :: rest)) := by
            rw [show dumpChars (Json.obj ((k, v) :: ms)) =
              '\x7b' :: ((memChars k v ++ dumpObjRest ms) ++ ['\x7d']) from rfl]
            simp [List.cons_append, List.append_assoc]
          have hlen2 : (memChars k v).length + (dumpObjRest ms).length + 2 ≤ f + 1 := by
            rw [show dumpChars (Json.obj ((k, v) :: ms)) =
              '\x7b' :: ((memChars k v ++ dumpObjRest ms) ++ ['\x7d']) from rfl] at hlen
            simp [List.length_cons, List.length_append] at hlen
            omega
          rw [hsplit, pValue_cons]
          rw [if_neg (by decide : ¬('\x7b' = 'n')), if_neg (by decide : ¬('\x7b' = 't')),
            if_neg (by decide : ¬('\x7b' = 'f')), if_neg (by decide : ¬('\x7b' = '"')),
            if_neg (by decide : ¬('\x7b' = '[')), if_pos (rfl : '\x7b' = '\x7b')]
          have hhead : headIs '\x7d' (memChars k v ++ (dumpObjRest ms ++ '\x7d' :: rest)) =
              false := by
            rw [show memChars k v ++ (dumpObjRest ms ++ '\x7d' :: rest) =
              '"' :: ((escList k.data ++ '"' :: ':' :: dumpChars v) ++
                (dumpObjRest ms ++ '\x7d' :: rest)) from rfl]
            simp [headIs]
          rw [hhead]
          rw [if_neg (by decide : ¬(false = true))]
          rw [ihM k v (dumpObjRest ms ++ '\x7d' :: rest) (by omega)
            (noDigitHead_objRest ms rest)]
          show (pObjRest f (dumpObjRest ms ++ '\x7d' :: rest)).map
            (fun p => (Json.obj ((k, v) :: p.1), p.2)) = some (Json.obj ((k, v) :: ms), rest)
          rw [ihR ms rest (by omega)]
          rfl
    · intro k v rest hlen hrest
      have hsplit : memChars k v ++ rest =
          '"' :: (escList k.data ++ '"' :: (':' :: (dumpChars v ++ rest))) := by
        rw [show memChars k v = '"' :: (escList k.data ++ '"' :: ':' :: dumpChars v) from rfl]
        simp [List.cons_append, List.append_assoc]
      have hlen2 : (dumpChars v).length + 3 ≤ f + 1 := by
        rw [show memChars k v = '"' :: (escList k.data ++ '"' :: ':' :: dumpChars v)
          from rfl] at hlen
        simp [List.length_cons, List.length_append] at hlen
        omega
      rw [hsplit, pMember_quote]
      rw [pStrAux_esc k.data (':' :: (dumpChars v ++ rest))]
      show (pValue f (dumpChars v ++ rest)).map
        (fun vr => ((String.mk k.data, vr.1), vr.2)) = some ((k, v), rest)
      rw [ihP v rest (by omega) hrest]
      rfl
    · intro xs rest hlen
      cases xs with
      | nil => rfl
      | cons y ys =>
        have hsplit : dumpArrRest (y :: ys) ++ ']' :: rest =
            ',' :: (dumpChars y ++ (dumpArrRest ys ++ ']' :: rest)) := by
          rw [show dumpArrRest (y :: ys) = ',' :: (dumpChars y ++ dumpArrRest ys) from rfl]
          simp [List.cons_append, List.append_assoc]
        have hlen2 : (dumpChars y).length + (dumpArrRest ys).length + 2 ≤ f + 1 := by
          rw [show dumpArrRest (y :: ys) = ',' :: (dumpChars y ++ dumpArrRest ys)
            from rfl] at hlen
          simp [List.length_cons, List.length_append] at hlen
          omega
        rw [hsplit]
        rw [show pArrRest (f + 1) (',' :: (dumpChars y ++ (dumpArrRest ys ++ ']' :: rest))) =
          (pValue f (dumpChars y ++ (dumpArrRest ys ++ ']' :: rest))).bind (fun vr =>
            (pArrRest f vr.2).map fun p => (vr.1 :: p.1, p.2)) from rfl]
        rw [ihP y (dumpArrRest ys ++ ']' :: rest) (by omega) (noDigitHead_arrRest ys rest)]
        show (pArrRest f (dumpArrRest ys ++ ']' :: rest)).map
          (fun p => (y :: p.1, p.2)) = some (y :: ys, rest)
        rw [ihQ ys rest (by omega)]
        rfl
    · intro ms rest hlen
      cases ms with
      | nil => rfl
      | cons m ms =>
        obtain ⟨k, v⟩ := m
        have hsplit : dumpObjRest ((k, v) :: ms) ++ '\x7d' :: rest =
            ',' :: (memChars k v ++ (dumpObjRest ms ++ '\x7d' :: rest)) := by
          rw [show dumpObjRest ((k, v) :: ms) = ',' :: (memChars k v ++ dumpObjRest ms)
            from rfl]
          simp [List.cons_append, List.append_assoc]
        have hlen2 : (memChars k v).length + (dumpObjRest ms).length + 2 ≤ f + 1 := by
          rw [show dumpObjRest ((k, v) :: ms) = ',' :: (memChars k v ++ dumpObjRest ms)
            from rfl] at hlen
          simp [List.length_cons, List.length_append] at hlen
          omega
        rw [hsplit]
        rw [show pObjRest (f + 1) (',' :: (memChars k v ++ (dumpObjRest ms ++ '\x7d' :: rest))) =
          (pMember f (memChars k v ++ (dumpObjRest ms ++ '\x7d' :: rest))).bind (fun kv =>
            (pObjRest f kv.2).map fun p => (kv.1 :: p.1, p.2)) from rfl]
        rw [ihM k v (dumpObjRest ms ++ '\x7d' :: rest) (by omega)
          (noDigitHead_objRest ms rest)]
        show (pObjRest f (dumpObjRest ms ++ '\x7d' :: rest)).map
          (fun p => ((k, v) :: p.1, p.2)) = some ((k, v) :: ms, rest)
        rw [ihR ms rest (by omega)]
        rfl

/-- Round-trip: deserialising the serialisation of any JSON payload yields
the payload back. -/
theorem jsonParse_dumps (v : Json) : jsonParse (Json.dumps v) = some v := by
  have h := (parse_dump ((dumpChars v).length + 1)).1 v [] (by omega) rfl
  rw [List.append_nil] at h
  rw [show jsonParse (Json.dumps v) =
    (match pValue ((dumpChars v).length + 1) (dumpChars v) with
      | some (w, []) => some w
      | _ => none) from rfl]
  rw [h]


theorem splitSegs_cons_slash (cs : List Char) : splitSegs ('/' :: cs) = [] :: splitSegs cs := rfl

theorem splitSegs_noslash :
    ∀ cs : List Char, (∀ c ∈ cs, c ≠ '/') → splitSegs cs = [cs] := by
  intro cs
  induction cs with
  | nil => intro _; rfl
  | cons c cs ih =>
    intro h
    have hc : c ≠ '/' := h c (List.mem_cons_self c cs)
    have hrec := ih (fun d hd => h d (List.mem_cons_of_mem c hd))
    rw [show splitSegs (c :: cs) =
      (if c = '/' then [] :: splitSegs cs
       else
         (match splitSegs cs with
          | s :: ss => (c :: s) :: ss
          | [] => [[c]])) from rfl]
    rw [if_neg hc, hrec]

theorem splitSegs_prefix :
    ∀ pre : List Char, (∀ c ∈ pre, c ≠ '/') →
      ∀ cs, splitSegs (pre ++ '/' :: cs) = pre :: splitSegs cs := by
  intro pre
  induction pre with
  | nil => intro _ cs; exact splitSegs_cons_slash cs
  | cons c pre ih =>
    intro h cs
    have hc : c ≠ '/' := h c (List.mem_cons_self c pre)
    have hrec := ih (fun d hd => h d (List.mem_cons_of_mem c hd)) cs
    rw [show (c :: pre) ++ '/' :: cs = c :: (pre ++ '/' :: cs) from rfl]
    rw [show splitSegs (c :: (pre ++ '/' :: cs)) =
      (if c = '/' then [] :: splitSegs (pre ++ '/' :: cs)
       else
         (match splitSegs (pre ++ '/' :: cs) with
          | s :: ss => (c :: s) :: ss
          | [] => [[c]])) from rfl]
    rw [if_neg hc, hrec]

theorem resolve_product_path (pid : String) (hns : ∀ c ∈ pid.data, c ≠ '/') :
    resolve "GET" ("/products/" ++ pid) = some (.getProductR, [("product_id", pid)]) := by
  unfold resolve
  rw [show ("/products/" ++ pid).data = '/' :: ("products".data ++ '/' :: pid.data) from rfl]
  rw [splitSegs_cons_slash, splitSegs_prefix "products".data (by decide) pid.data,
    splitSegs_noslash pid.data hns]
  rfl

theorem dispatch_get_product (pid : String) (hns : ∀ c ∈ pid.data, c ≠ '/') :
    dispatch ⟨"GET", "/products/" ++ pid, none, []⟩ = getProductH pid := by
  rw [show dispatch ⟨"GET", "/products/" ++ pid, none, []⟩ =
    (match resolve "GET" ("/products/" ++ pid) with
     | none => Except.error (PyExc.notFoundE "Not found")
     | some (h, params) => runHandler h params ⟨"GET", "/products/" ++ pid, none, []⟩)
    from rfl]
  rw [resolve_product_path pid hns]
  rfl

theorem dispatch_post_products (b : Option String) (rand : List Nat) :
    dispatch ⟨"POST", "/products", b, rand⟩ = createProductH b rand := rfl

theorem lookupLast_cons {α : Type} (k : String) (v : α) (rest : List (String × α))
    (key : String) :
    lookupLast ((k, v) :: rest) key =
      (match lookupLast rest key with
       | some r => some r
       | none => if k = key then some v else none) := by
  simp only [lookupLast]

theorem lookupLast_db_none (pid : String)
    (h1 : pid ≠ "prod1") (h2 : pid ≠ "prod2") (h3 : pid ≠ "prod3") :
    lookupLast productsDb pid = none := by
  have r3 : lookupLast [("prod3", prod3Json)] pid = none := by
    rw [lookupLast_cons]
    rw [show lookupLast ([] : List (String × Json)) pid = none from rfl]
    show (if "prod3" = pid then some prod3Json else none) = none
    rw [if_neg (fun hh => h3 hh.symm)]
  have r23 : lookupLast [("prod2", prod2Json), ("prod3", prod3Json)] pid = none := by
    rw [lookupLast_cons, r3]
    show (if "prod2" = pid then some prod2Json else none) = none
    rw [if_neg (fun hh => h2 hh.symm)]
  rw [show productsDb = ("prod1", prod1Json) ::
    [("prod2", prod2Json), ("prod3", prod3Json)] from rfl]
  rw [lookupLast_cons, r23]
  show (if "prod1" = pid then some prod1Json else none) = none
  rw [if_neg (fun hh => h1 hh.symm)]

theorem jsonParse_empty : jsonParse "" = none := rfl

theorem createProductTry_parsed (s : String) (kvs : List (String × Json)) (rand : List Nat)
    (hs : jsonParse s = some (.obj kvs)) :
    createProductTry (some s) rand =
      (if !pyTruthy (pyGet kvs "name") || !pyIsIntOrFloat (pyGet kvs "price") then
        .error (.badRequestE "Invalid product data. 'name' and 'price' are required.")
      else
        .ok (.obj [("message", .str "Product created successfully"),
                   ("product", .obj [("id", .str (newProductId rand)),
                                     ("name", pyGet kvs "name"),
                                     ("price", pyGet kvs "price")])], 201)) := by
  have hne : s ≠ "" := by
    intro h
    rw [h, jsonParse_empty] at hs
    exact Option.noConfusion hs
  have hb : jsonBody (some s) = .ok (.obj kvs) := by
    rw [show jsonBody (some s) =
      (if s = "" then Except.ok (Json.obj []) else
        (match jsonParse s with
         | some v => Except.ok v
         | none => Except.error (PyExc.otherE "Malformed JSON body"))) from rfl]
    rw [if_neg hne, hs]
  simp only [createProductTry]
  rw [hb]
  rfl

theorem createProductH_parsed (s : String) (kvs : List (String × Json)) (rand : List Nat)
    (hs : jsonParse s = some (.obj kvs)) :
    createProductH (some s) rand =
      (if !pyTruthy (pyGet kvs "name") || !pyIsIntOrFloat (pyGet kvs "price") then
        .error (.badRequestE "Invalid product data. 'name' and 'price' are required.")
      else
        .ok (.obj [("message", .str "Product created successfully"),
                   ("product", .obj [("id", .str (newProductId rand)),
                                     ("name", pyGet kvs "name"),
                                     ("price", pyGet kvs "price")])], 201)) := by
  rw [show createProductH (some s) rand =
    (match createProductTry (some s) rand with
     | .ok r => .ok r
     | .error (.badRequestE m) => .error (.badRequestE m)
     | .error e => .error (.badRequestE ("An unexpected error occurred: " ++ e.msg)))
    from rfl]
  rw [createProductTry_parsed s kvs rand hs]
  by_cases hc : (!pyTruthy (pyGet kvs "name") || !pyIsIntOrFloat (pyGet kvs "price")) = true
  · rw [if_pos hc]
  · rw [if_neg hc]

theorem createProductH_unparsable (s : String) (rand : List Nat)
    (hs : jsonParse s = none) (hne : s ≠ "") :
    createProductH (some s) rand =
      .error (.badRequestE "An unexpected error occurred: Malformed JSON body") := by
  have hb : jsonBody (some s) = .error (.otherE "Malformed JSON body") := by
    rw [show jsonBody (some s) =
      (if s = "" then Except.ok (Json.obj []) else
        (match jsonParse s with
         | some v => Except.ok v
         | none => Except.error (PyExc.otherE "Malformed JSON body"))) from rfl]
    rw [if_neg hne, hs]
  rw [show createProductH (some s) rand =
    (match createProductTry (some s) rand with
     | .ok r => .ok r
     | .error (.badRequestE m) => .error (.badRequestE m)
     | .error e => .error (.badRequestE ("An unexpected error occurred: " ++ e.msg)))
    from rfl]
  simp only [createProductTry]
  rw [hb]
  rfl

theorem createProductTry_ok_code (b : Option String) (rand : List Nat) (v : Json) (c : Nat)
    (h : createProductTry b rand = .ok (v, c)) : c = 201 := by
  unfold createProductTry at h
  split at h
  · simp at h
  · split at h
    · simp at h
    · split at h
      · simp at h
      · split at h
        · simp at h
        · simp at h
          omega

theorem createProductH_ok_code (b : Option String) (rand : List Nat) (v : Json) (c : Nat)
    (h : createProductH b rand = .ok (v, c)) : c = 201 := by
  unfold createProductH at h
  split at h
  · rename_i r heq
    obtain ⟨pv, pc⟩ := r
    simp at h
    obtain ⟨h1, h2⟩ := h
    have hcode := createProductTry_ok_code b rand pv pc heq
    omega
  · simp at h
  · simp at h

theorem dispatch_ok_code (e : Event) (v : Json) (c : Nat)
    (h : dispatch e = .ok (v, c)) : c = 200 ∨ c = 201 := by
  unfold dispatch at h
  cases hr : resolve e.httpMethod e.path with
  | none => rw [hr] at h; simp at h
  | some p =>
    obtain ⟨hid, params⟩ := p
    rw [hr] at h
    cases hid with
    | listProductsR =>
      simp [runHandler, listProductsH] at h
      left
      omega
    | getProductR =>
      simp only [runHandler] at h
      rw [show getProductH ((lookupLast params "product_id").getD "") =
        (match lookupLast productsDb ((lookupLast params "product_id").getD "") with
         | some p => Except.ok (p, 200)
         | none => Except.error (.notFoundE ("Product with ID '" ++
             ((lookupLast params "product_id").getD "") ++ "' not found.")))
        from rfl] at h
      cases hl : lookupLast productsDb ((lookupLast params "product_id").getD "") with
      | some prod => rw [hl] at h; simp at h; left; omega
      | none => rw [hl] at h; simp at h
    | createProductR =>
      simp only [runHandler] at h
      right
      exact createProductH_ok_code e.body e.randomBytes v c h

theorem handle_status_cases (e : Event) :
    (handle e).statusCode = 200 ∨ (handle e).statusCode = 201 ∨
    (handle e).statusCode = 400 ∨ (handle e).statusCode = 404 ∨
    (handle e).statusCode = 500 := by
  rw [show handle e = envelopeOf (dispatch e) from rfl]
  cases hd : dispatch e with
  | ok r =>
    obtain ⟨v, c⟩ := r
    rcases dispatch_ok_code e v c hd with hc | hc
    · left; simp [envelopeOf, hc]
    · right; left; simp [envelopeOf, hc]
  | error ex =>
    cases ex with
    | badRequestE m => right; right; left; rfl
    | notFoundE m => right; right; right; left; rfl
    | otherE m => right; right; right; right; rfl

theorem findRoute_eq_none :
    ∀ rs : List Route, ∀ m : String, ∀ segs : List (List Char),
      (∀ r ∈ rs, ¬(r.method = m ∧ (matchSegs r.template segs).isSome = true)) →
      findRoute rs m segs = none := by
  intro rs
  induction rs with
  | nil => intro m segs _; rfl
  | cons r rs ih =>
    intro m segs h
    have hr := h r (List.mem_cons_self r rs)
    have hrest := ih m segs (fun r2 hm => h r2 (List.mem_cons_of_mem r hm))
    rw [show findRoute (r :: rs) m segs =
      (if r.method = m then
        (match matchSegs r.template segs with
         | some ps => some (r.handler, ps)
         | none => findRoute rs m segs)
       else findRoute rs m segs) from rfl]
    by_cases hm : r.method = m
    · rw [if_pos hm]
      cases hms : matchSegs r.template segs with
      | some ps => exact absurd ⟨hm, by rw [hms]; rfl⟩ hr
      | none => exact hrest
    · rw [if_neg hm]
      exact hrest

theorem sameShape_refl : ∀ t : List Segment, sameShape t t = true := by
  intro t
  induction t with
  | nil => rfl
  | cons s ts ih =>
    cases s with
    | lit a =>
      rw [show sameShape (.lit a :: ts) (.lit a :: ts) =
        ((a = a : Bool) && sameShape ts ts) from rfl]
      simp [ih]
    | pvar n =>
      rw [show sameShape (.pvar n :: ts) (.pvar n :: ts) = sameShape ts ts from rfl]
      exact ih

theorem bytesHex_length (bs : List Nat) : (bytesHex bs).length = 2 * bs.length := by
  induction bs with
  | nil => rfl
  | cons b bs ih =>
    rw [show bytesHex (b :: bs) =
      hexDigitChar (b / 16 % 16) :: hexDigitChar (b % 16) :: bytesHex bs from rfl]
    simp [ih]
    omega

theorem newProductId_of_len4 (rand : List Nat) (h : rand.length = 4) :
    newProductId rand = "prod_8" := by
  rw [show newProductId rand =
    "prod_" ++ String.mk (natChars (bytesHex rand).length) from rfl]
  rw [bytesHex_length, h]
  rfl

/-- C1: REFUTED on the code (code bug, flagged by the spec itself in §7).
For POST /products with body "[1,2]" (valid JSON, not an object),
`create_product` raises an AttributeError — not one of the three modelled
error kinds — yet the response is a 400 BadRequest whose body embeds the
original exception text "'list' object has no attribute 'get'", instead of
the claimed 500 with a fixed generic message free of the failure detail. -/
theorem c1_unmodeled_error_leaks_as_400 :
    (handle ⟨"POST", "/products", some "[1,2]", [0, 0, 0, 0]⟩).statusCode = 400 ∧
    (handle ⟨"POST", "/products", some "[1,2]", [0, 0, 0, 0]⟩).statusCode ≠ 500 ∧
    (handle ⟨"POST", "/products", some "[1,2]", [0, 0, 0, 0]⟩).body =
      (errBody ("An unexpected error occurred: " ++
        "'list' object has no attribute 'get'")).dumps ∧
    ∃ pre post, (handle ⟨"POST", "/products", some "[1,2]", [0, 0, 0, 0]⟩).body =
      pre ++ "'list' object has no attribute 'get'" ++ post := by
  refine ⟨rfl, ?_, rfl, "\x7b\"message\":\"An unexpected error occurred: ", "\"\x7d", rfl⟩
  rw [show (handle ⟨"POST", "/products", some "[1,2]", [0, 0, 0, 0]⟩).statusCode = 400
    from rfl]
  decide

/-- C2: the fresh-id part is REFUTED on the code (code bug).  For every draw
of the four random bytes, the id interpolated by `create_product` is the
constant "prod_8" (the code takes `len(os.urandom(4).hex())`, which is
always 8), so two successful POSTs always return the same id; status 201,
name and price do come back as submitted, and "prod_8" differs from
prod1/prod2/prod3. -/
theorem c2_created_id_constant (rand : List Nat) (hlen : rand.length = 4) :
    dispatch ⟨"POST", "/products", some "\x7b\"name\":\"Monitor\",\"price\":300\x7d", rand⟩ =
      .ok (.obj [("message", .str "Product created successfully"),
                 ("product", .obj [("id", .str "prod_8"), ("name", .str "Monitor"),
                                   ("price", .num 300)])], 201) := by
  rw [dispatch_post_products]
  rw [createProductH_parsed "\x7b\"name\":\"Monitor\",\"price\":300\x7d"
    [("name", Json.str "Monitor"), ("price", Json.num 300)] rand rfl]
  rw [if_neg (by decide)]
  rw [newProductId_of_len4 rand hlen]
  rfl

/-- Witness for C2 at the concrete draw [0,0,0,0]. -/
theorem c2_created_id_constant_witness :
    ([0, 0, 0, 0] : List Nat).length = 4 ∧
    dispatch ⟨"POST", "/products", some "\x7b\"name\":\"Monitor\",\"price\":300\x7d",
        [0, 0, 0, 0]⟩ =
      .ok (.obj [("message", .str "Product created successfully"),
                 ("product", .obj [("id", .str "prod_8"), ("name", .str "Monitor"),
                                   ("price", .num 300)])], 201) :=
  ⟨rfl, c2_created_id_constant [0, 0, 0, 0] rfl⟩

/-- C3 counterexample: the body \x7b"name":123,"price":5\x7d lacks a
non-empty string value for "name" (123 is a number), so the claim as stated
requires a 400 response; the code accepts any Python-truthy name and
responds 201. -/
theorem c3_nonstring_truthy_name_accepted :
    (handle ⟨"POST", "/products", some "\x7b\"name\":123,\"price\":5\x7d",
      [0, 0, 0, 0]⟩).statusCode = 201 ∧
    (handle ⟨"POST", "/products", some "\x7b\"name\":123,\"price\":5\x7d",
      [0, 0, 0, 0]⟩).statusCode ≠ 400 := by
  refine ⟨rfl, ?_⟩
  rw [show (handle ⟨"POST", "/products", some "\x7b\"name\":123,\"price\":5\x7d",
    [0, 0, 0, 0]⟩).statusCode = 201 from rfl]
  decide

/-- C3 (amended): for every POST /products whose body parses to a JSON
object, the response is 400 with the fixed generic message exactly when the
"name" value is Python-falsy (absent, null, false, 0, empty string/array/
object) or the "price" value is not an int/float (bool included, as a
Python int subclass); otherwise it is 201. -/
theorem c3_validation_amended (s : String) (kvs : List (String × Json)) (rand : List Nat)
    (hs : jsonParse s = some (.obj kvs)) :
    (handle ⟨"POST", "/products", some s, rand⟩).statusCode =
      (if !pyTruthy (pyGet kvs "name") || !pyIsIntOrFloat (pyGet kvs "price")
        then 400 else 201) ∧
    ((!pyTruthy (pyGet kvs "name") || !pyIsIntOrFloat (pyGet kvs "price")) = true →
      (handle ⟨"POST", "/products", some s, rand⟩).body =
        (errBody "Invalid product data. 'name' and 'price' are required.").dumps) := by
  rw [show handle ⟨"POST", "/products", some s, rand⟩ =
    envelopeOf (createProductH (some s) rand) from rfl]
  rw [createProductH_parsed s kvs rand hs]
  by_cases hc : (!pyTruthy (pyGet kvs "name") || !pyIsIntOrFloat (pyGet kvs "price")) = true
  · rw [if_pos hc, if_pos hc]
    exact ⟨rfl, fun _ => rfl⟩
  · rw [if_neg hc, if_neg hc]
    exact ⟨rfl, fun hcc => absurd hcc hc⟩

/-- Witness for the amended C3 at a valid concrete body. -/
theorem c3_validation_amended_witness :
    jsonParse "\x7b\"name\":\"X\",\"price\":1\x7d" =
      some (.obj [("name", Json.str "X"), ("price", Json.num 1)]) ∧
    (handle ⟨"POST", "/products", some "\x7b\"name\":\"X\",\"price\":1\x7d",
        [0, 0, 0, 0]⟩).statusCode =
      (if !pyTruthy (pyGet [("name", Json.str "X"), ("price", Json.num 1)] "name") ||
          !pyIsIntOrFloat (pyGet [("name", Json.str "X"), ("price", Json.num 1)] "price")
        then 400 else 201) :=
  ⟨rfl, (c3_validation_amended "\x7b\"name\":\"X\",\"price\":1\x7d"
    [("name", Json.str "X"), ("price", Json.num 1)] [0, 0, 0, 0] rfl).1⟩

/-- C4: a POST /products body that is not parsable as JSON yields status
400 — never 500; for a non-empty such body the 400 is the BadRequest that
`create_product` builds around the parse-failure message. -/
theorem c4_unparsable_body_400 (s : String) (rand : List Nat)
    (hs : jsonParse s = none) :
    (handle ⟨"POST", "/products", some s, rand⟩).statusCode = 400 ∧
    (handle ⟨"POST", "/products", some s, rand⟩).statusCode ≠ 500 ∧
    (s ≠ "" → (handle ⟨"POST", "/products", some s, rand⟩).body =
      (errBody "An unexpected error occurred: Malformed JSON body").dumps) := by
  by_cases hne : s = ""
  · subst hne
    refine ⟨rfl, ?_, fun hcc => absurd rfl hcc⟩
    rw [show (handle ⟨"POST", "/products", some "", rand⟩).statusCode = 400 from rfl]
    decide
  · rw [show handle ⟨"POST", "/products", some s, rand⟩ =
      envelopeOf (createProductH (some s) rand) from rfl]
    rw [createProductH_unparsable s rand hs hne]
    exact ⟨rfl, by decide, fun _ => rfl⟩

/-- Witness for C4 at the concrete unparsable body "notjson". -/
theorem c4_unparsable_body_400_witness :
    jsonParse "notjson" = none ∧
    (handle ⟨"POST", "/products", some "notjson", [0, 0, 0, 0]⟩).statusCode = 400 ∧
    (handle ⟨"POST", "/products", some "notjson", [0, 0, 0, 0]⟩).statusCode ≠ 500 ∧
    ("notjson" ≠ "" →
      (handle ⟨"POST", "/products", some "notjson", [0, 0, 0, 0]⟩).body =
        (errBody "An unexpected error occurred: Malformed JSON body").dumps) :=
  ⟨rfl, c4_unparsable_body_400 "notjson" [0, 0, 0, 0] rfl⟩

/-- C5: GET /products/\x7bproduct_id\x7d returns 200 with the stored product
for prod1, prod2 and prod3, and otherwise 404 with a body whose message
mentions the given product id (for any id not containing a path
separator). -/
theorem c5_get_product (pid : String) (hns : ∀ c ∈ pid.data, c ≠ '/') :
    (pid = "prod1" → handle ⟨"GET", "/products/" ++ pid, none, []⟩ =
      ⟨200, stdHeaders, prod1Json.dumps, false⟩) ∧
    (pid = "prod2" → handle ⟨"GET", "/products/" ++ pid, none, []⟩ =
      ⟨200, stdHeaders, prod2Json.dumps, false⟩) ∧
    (pid = "prod3" → handle ⟨"GET", "/products/" ++ pid, none, []⟩ =
      ⟨200, stdHeaders, prod3Json.dumps, false⟩) ∧
    (pid ≠ "prod1" → pid ≠ "prod2" → pid ≠ "prod3" →
      (handle ⟨"GET", "/products/" ++ pid, none, []⟩).statusCode = 404 ∧
      jsonParse (handle ⟨"GET", "/products/" ++ pid, none, []⟩).body =
        some (errBody ("Product with ID '" ++ pid ++ "' not found.")) ∧
      ∃ pre post, ("Product with ID '" ++ pid ++ "' not found.") = pre ++ pid ++ post) := by
  refine ⟨?_, ?_, ?_, ?_⟩
  · intro h; subst h; rfl
  · intro h; subst h; rfl
  · intro h; subst h; rfl
  · intro h1 h2 h3
    have hd : dispatch ⟨"GET", "/products/" ++ pid, none, []⟩ = getProductH pid :=
      dispatch_get_product pid hns
    have hg : getProductH pid =
        .error (.notFoundE ("Product with ID '" ++ pid ++ "' not found.")) := by
      rw [show getProductH pid =
        (match lookupLast productsDb pid with
         | some p => Except.ok (p, 200)
         | none => Except.error (PyExc.notFoundE
             ("Product with ID '" ++ pid ++ "' not found."))) from rfl]
      rw [lookupLast_db_none pid h1 h2 h3]
    rw [show handle ⟨"GET", "/products/" ++ pid, none, []⟩ =
      envelopeOf (dispatch ⟨"GET", "/products/" ++ pid, none, []⟩) from rfl]
    rw [hd, hg]
    exact ⟨rfl, jsonParse_dumps (errBody ("Product with ID '" ++ pid ++ "' not found.")),
      "Product with ID '", "' not found.", rfl⟩

/-- Witness for C5 at the concrete unknown id "doesnotexist". -/
theorem c5_get_product_witness :
    (∀ c ∈ ("doesnotexist" : String).data, c ≠ '/') ∧
    ((handle ⟨"GET", "/products/" ++ "doesnotexist", none, []⟩).statusCode = 404 ∧
      jsonParse (handle ⟨"GET", "/products/" ++ "doesnotexist", none, []⟩).body =
        some (errBody ("Product with ID '" ++ "doesnotexist" ++ "' not found.")) ∧
      ∃ pre post, ("Product with ID '" ++ "doesnotexist" ++ "' not found.") =
        pre ++ "doesnotexist" ++ post) :=
  ⟨by decide, (c5_get_product "doesnotexist" (by decide)).2.2.2
    (by decide) (by decide) (by decide)⟩

/-- C6: GET /products returns 200 and a body whose JSON value has the key
"products" holding exactly three objects, each with id, name and price. -/
theorem c6_list_products :
    (handle ⟨"GET", "/products", none, []⟩).statusCode = 200 ∧
    jsonParse (handle ⟨"GET", "/products", none, []⟩).body =
      some (.obj [("products", .arr [
        .obj [("id", .str "prod1"), ("name", .str "Laptop"), ("price", .num 1200)],
        .obj [("id", .str "prod2"), ("name", .str "Mouse"), ("price", .num 25)],
        .obj [("id", .str "prod3"), ("name", .str "Keyboard"), ("price", .num 75)]])]) := by
  refine ⟨rfl, ?_⟩
  rw [show (handle ⟨"GET", "/products", none, []⟩).body =
    (Json.obj [("products", .arr [prod1Json, prod2Json, prod3Json])]).dumps from rfl]
  exact jsonParse_dumps (Json.obj [("products", .arr [prod1Json, prod2Json, prod3Json])])

/-- C7: an incoming (method, path) pair matched by no registered route —
including a known path under an unregistered method — yields 404, and no
response of the dispatcher ever has status 405. -/
theorem c7_unmatched_routes_404 (e : Event) :
    ((∀ r ∈ routeTable, ¬(r.method = e.httpMethod ∧
        (matchSegs r.template (splitSegs e.path.data)).isSome = true)) →
      (handle e).statusCode = 404) ∧
    (handle e).statusCode ≠ 405 := by
  constructor
  · intro h
    have hfr : findRoute routeTable e.httpMethod (splitSegs e.path.data) = none :=
      findRoute_eq_none routeTable e.httpMethod (splitSegs e.path.data) h
    have hd : dispatch e = .error (.notFoundE "Not found") := by
      rw [show dispatch e =
        (match resolve e.httpMethod e.path with
         | none => Except.error (PyExc.notFoundE "Not found")
         | some (hh, params) => runHandler hh params e) from rfl]
      rw [show resolve e.httpMethod e.path =
        findRoute routeTable e.httpMethod (splitSegs e.path.data) from rfl]
      rw [hfr]
    rw [show handle e = envelopeOf (dispatch e) from rfl, hd]
    rfl
  · rcases handle_status_cases e with h | h | h | h | h <;> omega

/-- Witness for C7 at the concrete unmatched pair (DELETE, /products). -/
theorem c7_unmatched_routes_404_witness :
    (∀ r ∈ routeTable, ¬(r.method = "DELETE" ∧
      (matchSegs r.template (splitSegs ("/products" : String).data)).isSome = true)) ∧
    (handle ⟨"DELETE", "/products", none, []⟩).statusCode = 404 ∧
    (handle ⟨"DELETE", "/products", none, []⟩).statusCode ≠ 405 :=
  ⟨by decide, (c7_unmatched_routes_404 ⟨"DELETE", "/products", none, []⟩).1 (by decide),
    (c7_unmatched_routes_404 ⟨"DELETE", "/products", none, []⟩).2⟩

/-- C8: registering the same (method, template) pair on a table where it was
already registered fails deterministically with a configuration error — the
earlier registration is never silently overwritten. -/
theorem c8_duplicate_registration_rejected
    (tbl tbl2 : List Route) (m : String) (t : List Segment) (h1 h2 : HandlerId)
    (hreg : register tbl m t h1 = .ok tbl2) :
    register tbl2 m t h2 =
      .error "A route with the same method and path template is already registered" := by
  unfold register at hreg
  by_cases hc : (tbl.any fun r => r.method = m && sameShape r.template t) = true
  · rw [if_pos hc] at hreg
    exact absurd hreg (by simp)
  · rw [if_neg hc] at hreg
    have htbl : tbl2 = tbl ++ [⟨m, t, h1⟩] := by
      injection hreg with hh
      exact hh.symm
    subst htbl
    unfold register
    rw [if_pos (by simp [List.any_append, sameShape_refl])]

/-- Witness for C8: registering GET /products twice on the empty table. -/
theorem c8_duplicate_registration_rejected_witness :
    register [] "GET" productsTemplate .listProductsR =
      .ok [⟨"GET", productsTemplate, .listProductsR⟩] ∧
    register [⟨"GET", productsTemplate, .listProductsR⟩] "GET" productsTemplate
        .getProductR =
      .error "A route with the same method and path template is already registered" :=
  ⟨rfl, c8_duplicate_registration_rejected [] [⟨"GET", productsTemplate, .listProductsR⟩]
    "GET" productsTemplate .listProductsR .getProductR rfl⟩

/-- C9: every response with a success status (200 or 201) carries a body
that is valid JSON deserialising back to exactly the payload the handler
returned. -/
theorem c9_success_body_roundtrip (e : Event)
    (hst : (handle e).statusCode = 200 ∨ (handle e).statusCode = 201) :
    ∃ v c, dispatch e = .ok (v, c) ∧ jsonParse (handle e).body = some v := by
  cases hd : dispatch e with
  | ok r =>
    obtain ⟨v, c⟩ := r
    refine ⟨v, c, rfl, ?_⟩
    rw [show handle e = envelopeOf (dispatch e) from rfl, hd]
    exact jsonParse_dumps v
  | error ex =>
    exfalso
    rw [show handle e = envelopeOf (dispatch e) from rfl, hd] at hst
    cases ex <;> simp [envelopeOf] at hst

/-- Witness for C9 at the concrete success GET /products. -/
theorem c9_success_body_roundtrip_witness :
    ((handle ⟨"GET", "/products", none, []⟩).statusCode = 200 ∨
      (handle ⟨"GET", "/products", none, []⟩).statusCode = 201) ∧
    ∃ v c, dispatch ⟨"GET", "/products", none, []⟩ = .ok (v, c) ∧
      jsonParse (handle ⟨"GET", "/products", none, []⟩).body = some v :=
  ⟨Or.inl rfl, c9_success_body_roundtrip ⟨"GET", "/products", none, []⟩ (Or.inl rfl)⟩

/-- C10 (implicit): a JSON boolean price passes the
`isinstance(product_price, (int, float))` check — Python bool is an int
subclass — so a body with a non-empty string name and boolean price is
created with status 201 and the boolean stored as the product price. -/
theorem c10_bool_price_accepted (s : String) (kvs : List (String × Json)) (nm : String)
    (b : Bool) (rand : List Nat)
    (hs : jsonParse s = some (.obj kvs))
    (hname : pyGet kvs "name" = .str nm) (hnm : nm ≠ "")
    (hprice : pyGet kvs "price" = .bool b)
    (hrand : rand.length = 4) :
    dispatch ⟨"POST", "/products", some s, rand⟩ =
      .ok (.obj [("message", .str "Product created successfully"),
                 ("product", .obj [("id", .str "prod_8"), ("name", .str nm),
                                   ("price", .bool b)])], 201) ∧
    (handle ⟨"POST", "/products", some s, rand⟩).statusCode = 201 := by
  have hcond : (!pyTruthy (pyGet kvs "name") || !pyIsIntOrFloat (pyGet kvs "price")) =
      false := by
    rw [hname, hprice]
    simp [pyTruthy, pyIsIntOrFloat, hnm]
  have hdisp : dispatch ⟨"POST", "/products", some s, rand⟩ =
      .ok (.obj [("message", .str "Product created successfully"),
                 ("product", .obj [("id", .str "prod_8"), ("name", .str nm),
                                   ("price", .bool b)])], 201) := by
    rw [dispatch_post_products]
    rw [createProductH_parsed s kvs rand hs]
    rw [if_neg (by simp [hcond])]
    rw [hname, hprice, newProductId_of_len4 rand hrand]
  refine ⟨hdisp, ?_⟩
  rw [show handle ⟨"POST", "/products", some s, rand⟩ =
    envelopeOf (dispatch ⟨"POST", "/products", some s, rand⟩) from rfl, hdisp]
  rfl

/-- Witness for C10 at the concrete body with a boolean price. -/
theorem c10_bool_price_accepted_witness :
    jsonParse "\x7b\"name\":\"A\",\"price\":true\x7d" =
      some (.obj [("name", Json.str "A"), ("price", Json.bool true)]) ∧
    (handle ⟨"POST", "/products", some "\x7b\"name\":\"A\",\"price\":true\x7d",
        [0, 0, 0, 0]⟩).statusCode = 201 :=
  ⟨rfl, (c10_bool_price_accepted "\x7b\"name\":\"A\",\"price\":true\x7d"
    [("name", Json.str "A"), ("price", Json.bool true)] "A" true [0, 0, 0, 0]
    rfl rfl (by decide) rfl rfl).2⟩
